import Mathlib

/-
Verification of the ZvukDownloader repository against its specification.

The development shallowly embeds the relevant parts of the three Python
source files:

  * zvuk_multibot.py  -- the multibot: Transport (make_request), the
    single-track and release download flows, folder naming, the artist
    download filter/sort, and normalize_quality;
  * ZvukDownloader.py -- the simple downloader: the quality-fallback
    decision in download_track.

Network and filesystem effects are modelled by explicit oracle inputs
(one outcome per HTTP attempt, one result per sub-step), and the shared
statistics dictionary by an explicit record threaded through the
functions.  Exceptions raised by library calls are modelled with
Except Unit; a Python try/except block becomes a match that maps the
error case to the handler's behaviour.
-/

/-! ## Transport: ZvukMultiBot.make_request (zvuk_multibot.py lines 128-170)

One element of `AttemptOutcome` describes what the service does on one
iteration of the retry loop: return status 418, return status 200 with a
JSON body (payload abstracted to a Nat id), return status 200 with a
binary body, return some other status, time out, or make the request
call raise.  The loop body distinguishes exactly these cases. -/

inductive AttemptOutcome : Type
  | status418 : AttemptOutcome
  | okJson : Nat → AttemptOutcome
  | okBinary : List Nat → String → AttemptOutcome
  | httpError : Nat → AttemptOutcome
  | timedOut : AttemptOutcome
  | raised : AttemptOutcome
  deriving DecidableEq

/-- The value `make_request` hands back on success: a decoded JSON body or
a dict wrapping binary data with its content type. -/
inductive HttpResponse : Type
  | json : Nat → HttpResponse
  | binary : List Nat → String → HttpResponse
  deriving DecidableEq

/-- Result of a `make_request` call: the returned value (`none` models the
Python `return None` after exhaustion), the number of increments of
`stats[requests_made]`, and the list of sleep durations performed inside
the retry loop (the initial random politeness delay is not listed). -/
structure ReqResult : Type where
  response : Option HttpResponse
  requestsMade : Nat
  waits : List Nat
  deriving DecidableEq

/-- Body of `for attempt in range(max_retries)` in `make_request`.
`attempts` is the list of remaining attempt indices.  On 418 the code
sleeps `retry_delay * (attempt + 1) * 2` and `continue`s, skipping the
ordinary end-of-iteration sleep; on 200 it returns; on any other status,
timeout or exception it falls through to the ordinary sleep
`retry_delay * (attempt + 1)`, performed only when
`attempt < max_retries - 1`. -/
def requestLoop (retryDelay maxRetries : Nat) (outcomes : Nat → AttemptOutcome)
    (made : Nat) (waits : List Nat) : List Nat → ReqResult
  | [] => ⟨none, made, waits⟩
  | attempt :: rest =>
    match outcomes attempt with
    | .status418 =>
        requestLoop retryDelay maxRetries outcomes (made + 1)
          (waits ++ [retryDelay * (attempt + 1) * 2]) rest
    | .okJson p => ⟨some (.json p), made + 1, waits⟩
    | .okBinary d ct => ⟨some (.binary d ct), made + 1, waits⟩
    | .httpError _ =>
        requestLoop retryDelay maxRetries outcomes (made + 1)
          (if attempt < maxRetries - 1 then waits ++ [retryDelay * (attempt + 1)] else waits) rest
    | .timedOut =>
        requestLoop retryDelay maxRetries outcomes (made + 1)
          (if attempt < maxRetries - 1 then waits ++ [retryDelay * (attempt + 1)] else waits) rest
    | .raised =>
        requestLoop retryDelay maxRetries outcomes (made + 1)
          (if attempt < maxRetries - 1 then waits ++ [retryDelay * (attempt + 1)] else waits) rest

/-- `ZvukMultiBot.make_request`: run the retry loop over attempts
`0, 1, ..., max_retries - 1`; if no attempt returned, the function
returns `None`. -/
def make_request (maxRetries retryDelay : Nat) (outcomes : Nat → AttemptOutcome) : ReqResult :=
  requestLoop retryDelay maxRetries outcomes 0 [] (List.range maxRetries)

/-- An attempt outcome counts as a failure when it is not a 200 response:
status 418, another non-200 status, a timeout, or a raised exception. -/
def isFailureOutcome : AttemptOutcome → Bool
  | .okJson _ => false
  | .okBinary _ _ => false
  | _ => true

/-! ## Filename and folder sanitization (zvuk_multibot.py lines 380 and 549) -/

/-- The whitespace characters Python's `str.rstrip()` removes, restricted
to the ASCII range over which the model ranges. -/
def pyIsSpaceChar (c : Char) : Bool :=
  c = ' ' || c = '\t' || c = '\n' || c = '\x0d' || c = '\x0b' || c = '\x0c'

/-- Python `str.rstrip()`: drop the trailing run of whitespace. -/
def rstripList (l : List Char) : List Char :=
  (l.reverse.dropWhile pyIsSpaceChar).reverse

/-- The character filter of line 380: `c.isalnum() or c in (' ', '-', '_', '.')`.
Python's Unicode `isalnum` is modelled by `Char.isAlphanum`, which agrees
with it on the ASCII range. -/
def trackAllowed (c : Char) : Bool :=
  c.isAlphanum || c = ' ' || c = '-' || c = '_' || c = '.'

/-- The character filter of line 549, additionally allowing brackets:
`c.isalnum() or c in (' ', '-', '_', '.', '[', ']')`. -/
def folderAllowed (c : Char) : Bool :=
  c.isAlphanum || c = ' ' || c = '-' || c = '_' || c = '.' || c = '[' || c = ']'

/-- Track filename sanitization (line 380):
`"".join(c for c in base_name if c.isalnum() or c in (' ', '-', '_', '.')).rstrip()`. -/
def sanitizeTrackName (s : String) : String :=
  ⟨rstripList (s.toList.filter trackAllowed)⟩

/-- Release folder sanitization (line 549): same rule with brackets allowed. -/
def sanitizeFolderName (s : String) : String :=
  ⟨rstripList (s.toList.filter folderAllowed)⟩

/-! ## Release records and folder naming (zvuk_multibot.py lines 518-551) -/

/-- The fields of a release dict that `download_release` and the artist
flow read.  `title` is `None` when the key is absent (the code defaults
it to `Release_<id>`); `date` is the `str()` of the service's date value
when present and truthy; `rtype` is `release_data.get('type', '')`;
`track_ids` is `release_data.get('track_ids', [])`. -/
structure ReleaseData : Type where
  title : Option String
  date : Option String
  rtype : String
  track_ids : List Nat
  deriving DecidableEq

/-- Lines 521-526: the bracketed year is emitted when the date is truthy,
has at least four characters, and its first four characters are digits. -/
def yearStr (date : Option String) : Option String :=
  match date with
  | none => none
  | some ds =>
    if 4 ≤ ds.length ∧ (ds.toList.take 4).all Char.isDigit then some ⟨ds.toList.take 4⟩
    else none

/-- Lines 527-537: the LP/SINGLE/EP label. -/
def releaseLabel (rtype : String) (track_ids : List Nat) : Option String :=
  if rtype = "album" then some "LP"
  else if track_ids.length = 1 then some "SINGLE"
  else if 2 ≤ track_ids.length ∧ track_ids.length ≤ 6 then some "EP"
  else none

/-- Python `f"{i:02d}"`: zero-pad to two digits. -/
def twoDigit (i : Nat) : String :=
  if i < 10 then "0" ++ toString i else toString i

/-- Lines 538-547: the parts joined by a single space to build the folder
name: optional `NN.` prefix when `album_index` is a positive int, optional
`[YEAR]`, the title (defaulted to `Release_<id>`), optional `[LABEL]`. -/
def folderParts (releaseId : Nat) (albumIndex : Option Nat) (rel : ReleaseData) : List String :=
  (match albumIndex with
   | some i => if 0 < i then [twoDigit i ++ "."] else []
   | none => []) ++
  (match yearStr rel.date with
   | some y => ["[" ++ y ++ "]"]
   | none => []) ++
  [rel.title.getD ("Release_" ++ toString releaseId)] ++
  (match releaseLabel rel.rtype rel.track_ids with
   | some lab => ["[" ++ lab ++ "]"]
   | none => [])

/-- Python `" ".join(parts)`: the parts separated by single spaces. -/
def joinBySpace : List String → String
  | [] => ""
  | [x] => x
  | x :: rest => x ++ " " ++ joinBySpace rest

/-- Lines 538-549: join the parts with spaces and sanitize. -/
def buildFolderName (releaseId : Nat) (albumIndex : Option Nat) (rel : ReleaseData) : String :=
  sanitizeFolderName (joinBySpace (folderParts releaseId albumIndex rel))

/-! ## Release download flow (zvuk_multibot.py lines 501-579) -/

/-- The per-track dict from `release_info['result']['tracks']`; the flow
only reads its `position`.  A track id missing from the dict (or mapped
to an empty dict, which is falsy) gets no download task. -/
structure TrackEntry : Type where
  position : Nat
  deriving DecidableEq

/-- The `result` object of the releases response: the `releases` dict and
the `tracks` dict, both keyed by numeric id. -/
structure ReleaseResult : Type where
  releases : List (Nat × ReleaseData)
  tracks : List (Nat × TrackEntry)
  deriving DecidableEq

/-- Dict lookup by numeric key. -/
def lookupById {α : Type} (l : List (Nat × α)) (k : Nat) : Option α :=
  (l.find? (fun p => p.1 = k)).map (fun p => p.2)

/-- Result of one gathered download task under
`asyncio.gather(..., return_exceptions=True)`: the boolean the task
returned, or the exception it raised (collected, not re-raised). -/
inductive TaskResult : Type
  | ok : Bool → TaskResult
  | exn : TaskResult
  deriving DecidableEq

/-- Lines 556-572: one task per constituent track id whose entry in the
tracks dict is present (and truthy), in track-id order. -/
def releaseTasks (r : ReleaseResult) (rd : ReleaseData) : List Nat :=
  rd.track_ids.filter (fun t => (lookupById r.tracks t).isSome)

/-- `ZvukMultiBot.download_release`: returns the number of downloaded
tracks.  `resp` is the value `get_releases` returned (`none` models a
`None` or `result`-less response); `dl` gives each track task's outcome.
Lines 574-576: all tasks are gathered (exceptions collected) and the
count is of results that are `True`. -/
def download_release (releaseId : Nat) (resp : Option ReleaseResult)
    (albumIndex : Option Nat) (dl : Nat → TaskResult) : Nat :=
  match resp with
  | none => 0
  | some r =>
    match lookupById r.releases releaseId with
    | none => 0
    | some rd =>
      if r.tracks = [] then 0
      else
        let _folder := buildFolderName releaseId albumIndex rd
        ((releaseTasks r rd).map dl).countP (fun res => res = .ok true)

/-! ## Artist download flow (zvuk_multibot.py lines 1228-1273) -/

/-- Lines 1246-1257: the skip-singles filter.  With the option on, a
release is kept exactly when its type is `album` or it has at least 7
track ids; with the option off every release is kept. -/
def albumsToDownload (skipSingles : Bool) (rels : List (Nat × ReleaseData)) :
    List (Nat × ReleaseData) :=
  rels.filter (fun p =>
    if skipSingles then (p.2.rtype = "album" || 7 ≤ p.2.track_ids.length) else true)

/-- Value of a digit string. -/
def digitsToNat (l : List Char) : Nat :=
  l.foldl (fun acc c => acc * 10 + (c.toNat - 48)) 0

/-- `_release_date_int` (lines 1260-1270): `None` maps to the sentinel
99999999; otherwise the first 8 digit characters of the stringified date
are read as a number, with the empty digit string again mapping to the
sentinel.  (The `except ValueError` branch is unreachable: `int` cannot
fail on a non-empty digit string.) -/
def release_date_int (dv : Option String) : Nat :=
  match dv with
  | none => 99999999
  | some ds =>
    let digits := (ds.toList.filter Char.isDigit).take 8
    if digits = [] then 99999999 else digitsToNat digits

/-- Stable insertion preserving descending key order: the new element goes
before the first strictly smaller key, after equal keys — the order
`list.sort(key=..., reverse=True)` produces. -/
def insertByDateDesc (x : Nat × ReleaseData) :
    List (Nat × ReleaseData) → List (Nat × ReleaseData)
  | [] => [x]
  | y :: ys =>
    if release_date_int y.2.date ≤ release_date_int x.2.date then x :: y :: ys
    else y :: insertByDateDesc x ys

/-- Stable descending sort by `_release_date_int`, matching line 1272's
`albums_to_download.sort(key=lambda pair: _release_date_int(pair[1]), reverse=True)`. -/
def sortByDateDesc : List (Nat × ReleaseData) → List (Nat × ReleaseData)
  | [] => []
  | x :: xs => insertByDateDesc x (sortByDateDesc xs)

/-- Lines 1246-1273 of `cmd_download_artist`: filter, sort descending by
date key, truncate to `limit`. -/
def artistCandidates (skipSingles : Bool) (limit : Nat)
    (rels : List (Nat × ReleaseData)) : List (Nat × ReleaseData) :=
  (sortByDateDesc (albumsToDownload skipSingles rels)).take limit

/-! ## Quality normalization (zvuk_multibot.py lines 1302-1314) -/

/-- Python `str.lower()` on one character, over the ASCII range the
quality aliases use. -/
def pyLowerChar (c : Char) : Char :=
  if 'A' ≤ c ∧ c ≤ 'Z' then Char.ofNat (c.toNat + 32) else c

/-- Python `(quality or '').strip().lower()`: drop leading and trailing
whitespace, then lower-case. -/
def pyStripLower (s : String) : String :=
  ⟨(((s.toList.dropWhile pyIsSpaceChar).reverse.dropWhile pyIsSpaceChar).reverse).map pyLowerChar⟩

/-- `ZvukMultiBotCLI.normalize_quality`: strip and lower-case the input,
then look it up in the alias table, defaulting to `high`.  The dict
lookup is written as an if-chain over the eight keys. -/
def normalize_quality (quality : String) : String :=
  let q := pyStripLower quality
  if q = "f" then "flac"
  else if q = "h" then "high"
  else if q = "m" then "mid"
  else if q = "flac" then "flac"
  else if q = "high" then "high"
  else if q = "mid" then "mid"
  else if q = "320" then "high"
  else if q = "128" then "mid"
  else "high"

/-! ## Simple downloader: SberZvukDownloader.download_track
(ZvukDownloader.py lines 50-65) -/

/-- The configuration fields the quality decision reads:
`config.get('format', '1')` and `config['fallback_to_lower_quality']`. -/
structure ZdConfig : Type where
  format : String
  fallback_to_lower_quality : Bool
  deriving DecidableEq

/-- The track-info fields lines 50-65 read. -/
structure ZdTrackInfo : Type where
  id : Nat
  title : String
  has_flac : Bool
  deriving DecidableEq

/-- Where the quality-resolution prefix of `download_track` ends up:
the early return on missing info, the skip that records the track as
failed, or proceeding to fetch the stream at the resolved tier. -/
inductive ZdOutcome : Type
  | noInfo : ZdOutcome
  | skippedQuality : ZdOutcome
  | proceed : String → ZdOutcome
  deriving DecidableEq

/-- Lines 50-65 of `SberZvukDownloader.download_track`: the preferred
format is `flac` when the configured format is `'1'` else `high`; the
available format is `flac` when the track has FLAC else `high`; when they
differ and fallback is disabled the track is skipped and appended to
`failed_tracks`; otherwise the flow proceeds to request the stream at the
available format.  Returns the outcome with the updated failed list. -/
def zd_download_track (cfg : ZdConfig) (info : Option ZdTrackInfo)
    (failed : List Nat) : ZdOutcome × List Nat :=
  match info with
  | none => (.noInfo, failed)
  | some t =>
    let preferred := if cfg.format = "1" then "flac" else "high"
    let available := if t.has_flac then "flac" else "high"
    if preferred ≠ available ∧ cfg.fallback_to_lower_quality = false then
      (.skippedQuality, failed ++ [t.id])
    else (.proceed available, failed)

/-! ## Multibot single-track flow: download_track and _embed_track_metadata
(zvuk_multibot.py lines 330-499) -/

/-- The statistics counters of `ZvukMultiBot.stats` that the track flow
touches. -/
structure Stats : Type where
  successful_downloads : Nat
  failed_downloads : Nat
  total_data_downloaded : Nat
  metadata_embedded : Nat
  covers_downloaded : Nat
  deriving DecidableEq

/-- Oracles for the sub-steps of `_embed_track_metadata`, each of which
may raise (`Except.error`) inside the corresponding `try` block:
`lyricsStep` is the lyrics fetch and format split (its `ok` value the
plain text, if any), `coverStep` the cover download and optimization
(its `ok (some _)` value the final bytes), `tagWrite` the
`metadata_manager.embed_metadata` call (its `ok` value the returned
boolean), `sidecarStep` the lyric/subtitle file writes. -/
structure EmbedOracles : Type where
  lyricsStep : Except Unit (Option String)
  coverStep : Except Unit (Option (List Nat))
  tagWrite : Except Unit Bool
  sidecarStep : Except Unit Unit

/-- `ZvukMultiBot._embed_track_metadata` (lines 437-499).  Every sub-step
sits inside a `try/except`, and the whole body inside one more, so the
function is total: it returns updated statistics and never propagates an
exception.  A raise in the lyrics or cover step is logged and leaves the
corresponding value absent; a raise in the tag write escapes the inner
conditionals into the outer handler, skipping the sidecar block; a raise
in the sidecar block is logged and ignored. -/
def embed_track_metadata (o : EmbedOracles) (hasCoverSrc download_cover : Bool)
    (stats : Stats) : Stats :=
  let _lyrics : Option String :=
    match o.lyricsStep with
    | .ok l => l
    | .error _ => none
  let stats :=
    if download_cover && hasCoverSrc then
      match o.coverStep with
      | .ok (some _) => { stats with covers_downloaded := stats.covers_downloaded + 1 }
      | .ok none => stats
      | .error _ => stats
    else stats
  match o.tagWrite with
  | .ok true => { stats with metadata_embedded := stats.metadata_embedded + 1 }
  | .ok false => stats
  | .error _ => stats

/-- Inputs to one `ZvukMultiBot.download_track` call: what each network
and service step yields.  `trackResp` is `none` when `get_tracks`
returned `None` or a `result`-less dict, `some none` when the id is
missing from the tracks dict; `qualityAvailable` is the requested
quality's availability flag; `bestQuality` is what
`get_best_available_quality` returns; `streamUrl` is what
`get_stream_url` returns; `streamStatus` is the status of the GET on the
stream URL; `chunks` are the streamed chunk sizes; `embed` drives the
metadata phase. -/
structure DtInputs : Type where
  trackResp : Option (Option Unit)
  qualityAvailable : Bool
  bestQuality : Option String
  streamUrl : Option String
  streamStatus : Nat
  chunks : List Nat
  hasCoverSrc : Bool
  embed : EmbedOracles

/-- `ZvukMultiBot.download_track` (lines 330-435), for the
`embed_metadata = True` path used by the release flow.  Returns the
boolean result, the updated statistics, and whether the audio file was
fully written (nothing in the function ever deletes it).  The failure
paths each increment `failed_downloads` and return `False`; after the
chunked write loop completes the code increments `successful_downloads`,
runs the metadata phase (which cannot raise), and returns `True`. -/
def download_track_m (quality : String) (download_cover : Bool) (inp : DtInputs)
    (stats : Stats) : Bool × Stats × Bool :=
  match inp.trackResp with
  | none => (false, { stats with failed_downloads := stats.failed_downloads + 1 }, false)
  | some none => (false, { stats with failed_downloads := stats.failed_downloads + 1 }, false)
  | some (some _) =>
    let resolved : Option String :=
      if inp.qualityAvailable then some quality else inp.bestQuality
    match resolved with
    | none => (false, { stats with failed_downloads := stats.failed_downloads + 1 }, false)
    | some _ =>
      match inp.streamUrl with
      | none => (false, { stats with failed_downloads := stats.failed_downloads + 1 }, false)
      | some _ =>
        if inp.streamStatus = 200 then
          let stats := { stats with
            total_data_downloaded := stats.total_data_downloaded + inp.chunks.sum }
          let stats := { stats with
            successful_downloads := stats.successful_downloads + 1 }
          let stats := embed_track_metadata inp.embed inp.hasCoverSrc download_cover stats
          (true, stats, true)
        else
          (false, { stats with failed_downloads := stats.failed_downloads + 1 }, false)

/-! ## Shared helper lemmas -/

/-- If every remaining attempt fails, the retry loop falls off the end
and yields no response. -/
theorem requestLoop_response_none (retryDelay maxRetries : Nat)
    (outcomes : Nat → AttemptOutcome) :
    ∀ (attempts : List Nat) (made : Nat) (waits : List Nat),
      (∀ a ∈ attempts, isFailureOutcome (outcomes a) = true) →
      (requestLoop retryDelay maxRetries outcomes made waits attempts).response = none := by
  intro attempts
  induction attempts with
  | nil => intro made waits _; rfl
  | cons a rest ih =>
    intro made waits h
    have ha := h a (List.mem_cons_self a rest)
    have hrest := fun b hb => h b (List.mem_cons_of_mem a hb)
    cases hout : outcomes a with
    | status418 => simp only [requestLoop, hout]; exact ih _ _ hrest
    | okJson p => rw [hout] at ha; simp [isFailureOutcome] at ha
    | okBinary d ct => rw [hout] at ha; simp [isFailureOutcome] at ha
    | httpError c => simp only [requestLoop, hout]; exact ih _ _ hrest
    | timedOut => simp only [requestLoop, hout]; exact ih _ _ hrest
    | raised => simp only [requestLoop, hout]; exact ih _ _ hrest

/-! ## Claim theorems -/

/-- Claim C1: when every one of the `max_retries` attempts fails (418,
another non-200 status, timeout, or a raised exception), `make_request`
returns `None` to its caller; exceptions raised during an attempt are
caught inside the loop and never propagate (in the model, the function
is total and its failure value is `none`). -/
theorem C1_make_request_exhaustion (maxRetries retryDelay : Nat)
    (outcomes : Nat → AttemptOutcome)
    (h : ∀ i, i < maxRetries → isFailureOutcome (outcomes i) = true) :
    (make_request maxRetries retryDelay outcomes).response = none := by
  apply requestLoop_response_none
  intro a ha
  exact h a (List.mem_range.mp ha)

/-- Witness for C1: five timeouts in a row yield `none`. -/
theorem C1_witness :
    (make_request 5 3 (fun _ => AttemptOutcome.timedOut)).response = none :=
  C1_make_request_exhaustion 5 3 (fun _ => AttemptOutcome.timedOut) (fun _ _ => rfl)

/-- Claim C4: a 418 on attempt 1 of 5 followed by a 200-JSON attempt makes
`make_request` sleep exactly one extended cool-down of
`retry_delay * (attempt + 1) * 2` (skipping that iteration's ordinary
delay), return the decoded payload, and increment the request counter
exactly twice; for a positive delay the cool-down exceeds the ordinary
inter-attempt delay. -/
theorem C4_teapot_cooldown (d p : Nat) (outcomes : Nat → AttemptOutcome)
    (h0 : outcomes 0 = AttemptOutcome.status418)
    (h1 : outcomes 1 = AttemptOutcome.okJson p) :
    make_request 5 d outcomes
      = ⟨some (HttpResponse.json p), 2, [d * (0 + 1) * 2]⟩ ∧
    (0 < d → d * (0 + 1) < d * (0 + 1) * 2) := by
  constructor
  · have hrange : List.range 5 = [0, 1, 2, 3, 4] := rfl
    rw [make_request, hrange]
    simp [requestLoop, h0, h1]
  · intro hd; omega

/-- Witness for C4: delay 3, payload 7. -/
theorem C4_witness :
    make_request 5 3 (fun i => if i = 0 then AttemptOutcome.status418 else AttemptOutcome.okJson 7)
      = ⟨some (HttpResponse.json 7), 2, [3 * (0 + 1) * 2]⟩ :=
  (C4_teapot_cooldown 3 7
    (fun i => if i = 0 then AttemptOutcome.status418 else AttemptOutcome.okJson 7)
    rfl rfl).1

/-- Claim C10: `normalize_quality` always lands in the set
`{flac, high, mid}`; it maps the trimmed lower-cased input through the
aliases f/flac to flac, h/high/320 to high, m/mid/128 to mid, and yields
`high` for every unrecognized input, the empty string included. -/
theorem C10_normalize_quality (s : String) :
    (normalize_quality s = "flac" ∨ normalize_quality s = "high" ∨
      normalize_quality s = "mid") ∧
    (pyStripLower s ∉ (["f", "h", "m", "flac", "high", "mid", "320", "128"] : List String) →
      normalize_quality s = "high") ∧
    normalize_quality "f" = "flac" ∧ normalize_quality "flac" = "flac" ∧
    normalize_quality "h" = "high" ∧ normalize_quality "high" = "high" ∧
    normalize_quality "320" = "high" ∧ normalize_quality "m" = "mid" ∧
    normalize_quality "mid" = "mid" ∧ normalize_quality "128" = "mid" ∧
    normalize_quality "" = "high" ∧ normalize_quality " FLAC " = "flac" := by
  refine ⟨?_, ?_, by decide, by decide, by decide, by decide, by decide, by decide,
    by decide, by decide, by decide, by decide⟩
  · simp only [normalize_quality]
    split_ifs <;> simp
  · intro h
    simp only [List.mem_cons, List.mem_singleton, not_or] at h
    simp only [normalize_quality]
    split_ifs <;> simp_all

/-- Witness for C10: an unrecognized input maps to `high`. -/
theorem C10_witness : normalize_quality "lossless" = "high" :=
  (C10_normalize_quality "lossless").2.1 (by decide)

/-- Claim C3: for track 116136641 with requested quality `flac`
(configured format `'1'`) but FLAC unavailable (`has_flac` false, `high`
available), the fallback-enabled configuration proceeds with the download
at the resolved tier `high`, while the fallback-disabled configuration
skips the track (no stream fetched) and appends its id to the failure
list. -/
theorem C3_flac_fallback (failed : List Nat) (title : String) :
    zd_download_track ⟨"1", true⟩ (some ⟨116136641, title, false⟩) failed
      = (ZdOutcome.proceed "high", failed) ∧
    zd_download_track ⟨"1", false⟩ (some ⟨116136641, title, false⟩) failed
      = (ZdOutcome.skippedQuality, failed ++ [116136641]) ∧
    116136641 ∈ (zd_download_track ⟨"1", false⟩ (some ⟨116136641, title, false⟩) failed).2 := by
  refine ⟨by simp [zd_download_track], by simp [zd_download_track], ?_⟩
  simp [zd_download_track]

/-- Claim C8: with skip-singles enabled a fetched release is kept exactly
when the service types it as album or it has at least 7 track ids; with
the option disabled every fetched release is kept. -/
theorem C8_skip_singles (skipSingles : Bool) (rels : List (Nat × ReleaseData))
    (p : Nat × ReleaseData) :
    (p ∈ albumsToDownload skipSingles rels ↔
      p ∈ rels ∧ (skipSingles = true → (p.2.rtype = "album" ∨ 7 ≤ p.2.track_ids.length))) ∧
    albumsToDownload false rels = rels := by
  constructor
  · cases skipSingles <;> simp [albumsToDownload, List.mem_filter]
  · simp [albumsToDownload]

/-- Claim C2: when the service returns the release's track-id list and a
record for every constituent track, the release flow creates one download
task per constituent track id, waits for all of them (an exception in one
task is collected, not propagated to siblings), and returns a success
count equal to the number of tasks that returned `True` and bounded by
the number of constituent track ids. -/
theorem C2_release_success_count (releaseId : Nat) (r : ReleaseResult) (rd : ReleaseData)
    (albumIndex : Option Nat) (dl : Nat → TaskResult)
    (hfind : lookupById r.releases releaseId = some rd)
    (htracks : r.tracks ≠ [])
    (hall : ∀ t ∈ rd.track_ids, (lookupById r.tracks t).isSome = true) :
    releaseTasks r rd = rd.track_ids ∧
    download_release releaseId (some r) albumIndex dl
      = (rd.track_ids.filter (fun t => dl t = TaskResult.ok true)).length ∧
    download_release releaseId (some r) albumIndex dl ≤ rd.track_ids.length := by
  have htasks : releaseTasks r rd = rd.track_ids :=
    List.filter_eq_self.mpr hall
  have hcount : download_release releaseId (some r) albumIndex dl
      = (rd.track_ids.filter (fun t => dl t = TaskResult.ok true)).length := by
    simp only [download_release, hfind, htracks, if_neg htracks, htasks]
    rw [List.countP_eq_length_filter, List.filter_map, List.length_map]
    rfl
  refine ⟨htasks, hcount, ?_⟩
  rw [hcount]
  exact List.length_filter_le _ _

/-- Witness for C2: a two-track release where the second task raises
yields success count 1, within the bound 2. -/
theorem C2_witness :
    download_release 5
        (some ⟨[(5, ⟨some "T", none, "album", [10, 11]⟩)], [(10, ⟨1⟩), (11, ⟨2⟩)]⟩)
        none (fun t => if t = 10 then TaskResult.ok true else TaskResult.exn)
      = (([10, 11] : List Nat).filter
          (fun t => (if t = 10 then TaskResult.ok true else TaskResult.exn)
            = TaskResult.ok true)).length ∧
    download_release 5
        (some ⟨[(5, ⟨some "T", none, "album", [10, 11]⟩)], [(10, ⟨1⟩), (11, ⟨2⟩)]⟩)
        none (fun t => if t = 10 then TaskResult.ok true else TaskResult.exn)
      ≤ ([10, 11] : List Nat).length :=
  (C2_release_success_count 5
    ⟨[(5, ⟨some "T", none, "album", [10, 11]⟩)], [(10, ⟨1⟩), (11, ⟨2⟩)]⟩
    ⟨some "T", none, "album", [10, 11]⟩ none
    (fun t => if t = 10 then TaskResult.ok true else TaskResult.exn)
    (by decide) (by decide) (by decide)).2

/-- Everything surviving `rstrip` was in the original list. -/
theorem rstripList_subset (l : List Char) : ∀ c ∈ rstripList l, c ∈ l := by
  intro c hc
  unfold rstripList at hc
  rw [List.mem_reverse] at hc
  have hsub := (List.dropWhile_sublist (l := l.reverse) pyIsSpaceChar).subset hc
  rwa [List.mem_reverse] at hsub

/-- Dropping a satisfied run twice is the same as dropping it once. -/
theorem dropWhile_self_idem (p : Char → Bool) (l : List Char) :
    (l.dropWhile p).dropWhile p = l.dropWhile p := by
  induction l with
  | nil => rfl
  | cons c t ih =>
    by_cases h : p c = true
    · simp [List.dropWhile_cons, h, ih]
    · simp [List.dropWhile_cons, h]

/-- `rstrip` is idempotent. -/
theorem rstripList_idem (l : List Char) : rstripList (rstripList l) = rstripList l := by
  unfold rstripList
  rw [List.reverse_reverse, dropWhile_self_idem]

/-- Claim C6: the track filename sanitization keeps exactly the characters
that are alphanumeric or in the set of space, hyphen, underscore and dot
(removing all others, then stripping trailing whitespace), and it is
idempotent. -/
theorem C6_sanitize_track (s : String) :
    sanitizeTrackName s = ⟨rstripList (s.toList.filter trackAllowed)⟩ ∧
    (∀ c ∈ (sanitizeTrackName s).toList,
      (c.isAlphanum || c = ' ' || c = '-' || c = '_' || c = '.') = true) ∧
    sanitizeTrackName (sanitizeTrackName s) = sanitizeTrackName s := by
  refine ⟨rfl, ?_, ?_⟩
  · intro c hc
    have hmem : c ∈ s.toList.filter trackAllowed := rstripList_subset _ c hc
    have hallow : trackAllowed c = true := List.of_mem_filter hmem
    simpa [trackAllowed] using hallow
  · show (⟨rstripList (((sanitizeTrackName s).toList).filter trackAllowed)⟩ : String)
      = sanitizeTrackName s
    have hself : ((sanitizeTrackName s).toList).filter trackAllowed
        = (sanitizeTrackName s).toList := by
      apply List.filter_eq_self.mpr
      intro c hc
      have hmem : c ∈ s.toList.filter trackAllowed := rstripList_subset _ c hc
      exact List.of_mem_filter hmem
    rw [hself]
    show (⟨rstripList (rstripList (s.toList.filter trackAllowed))⟩ : String) = _
    rw [rstripList_idem]
    rfl

/-- Witness for C6: every character kept from a concrete dirty name is in
the permitted set. -/
theorem C6_witness :
    (('a' : Char).isAlphanum || 'a' = ' ' || 'a' = '-' || 'a' = '_' || 'a' = '.') = true :=
  (C6_sanitize_track "a*! ").2.1 'a' (by decide)

/-- The metadata phase only touches the cover and embed counters: it
preserves the success, failure and byte counters, whatever its sub-steps
do (including raising). -/
theorem embed_track_metadata_preserves (o : EmbedOracles) (hasCoverSrc download_cover : Bool)
    (stats : Stats) :
    (embed_track_metadata o hasCoverSrc download_cover stats).successful_downloads
      = stats.successful_downloads ∧
    (embed_track_metadata o hasCoverSrc download_cover stats).failed_downloads
      = stats.failed_downloads ∧
    (embed_track_metadata o hasCoverSrc download_cover stats).total_data_downloaded
      = stats.total_data_downloaded := by
  rcases o with ⟨ls, cs, tw, ss⟩
  simp only [embed_track_metadata]
  by_cases h : (download_cover && hasCoverSrc) = true <;>
    rcases cs with _ | _ | c <;> rcases tw with _ | b <;> simp [h]
  all_goals cases b <;> simp

/-- Claim C9: once the audio payload is fully streamed to disk, no failure
in the metadata phase (lyrics fetch, cover download, or tag write — each
modelled as a possibly-raising oracle) deletes the file, prevents
`download_track` from returning `True`, or undoes the
`successful_downloads` increment; the phase catches every exception (the
model is total in the oracles) and runs only after the write loop has
added every chunk to the byte counter. -/
theorem C9_embed_failure_isolated (quality : String) (download_cover : Bool)
    (inp : DtInputs) (stats : Stats)
    (htrack : inp.trackResp = some (some Unit.unit))
    (hq : inp.qualityAvailable = true)
    (u : String) (hurl : inp.streamUrl = some u)
    (hstatus : inp.streamStatus = 200) :
    (download_track_m quality download_cover inp stats).1 = true ∧
    (download_track_m quality download_cover inp stats).2.2 = true ∧
    (download_track_m quality download_cover inp stats).2.1.successful_downloads
      = stats.successful_downloads + 1 ∧
    (download_track_m quality download_cover inp stats).2.1.total_data_downloaded
      = stats.total_data_downloaded + inp.chunks.sum ∧
    (download_track_m quality download_cover inp stats).2.1.failed_downloads
      = stats.failed_downloads := by
  have hpres := embed_track_metadata_preserves inp.embed inp.hasCoverSrc download_cover
    { stats with
      total_data_downloaded := stats.total_data_downloaded + inp.chunks.sum,
      successful_downloads := stats.successful_downloads + 1 }
  simp only [download_track_m, htrack, hq, hurl, hstatus, if_pos, if_true]
  refine ⟨trivial, trivial, ?_, ?_, ?_⟩
  · rw [hpres.1]
  · rw [hpres.2.2]
  · rw [hpres.2.1]

/-- Witness for C9: every metadata sub-step raising still leaves the
download successful, the file written, and the counter incremented. -/
theorem C9_witness :
    (download_track_m "flac" true
      ⟨some (some Unit.unit), true, none, some "u", 200, [8192, 100], true,
        ⟨Except.error Unit.unit, Except.error Unit.unit, Except.error Unit.unit,
          Except.error Unit.unit⟩⟩
      ⟨0, 0, 0, 0, 0⟩).1 = true ∧
    (download_track_m "flac" true
      ⟨some (some Unit.unit), true, none, some "u", 200, [8192, 100], true,
        ⟨Except.error Unit.unit, Except.error Unit.unit, Except.error Unit.unit,
          Except.error Unit.unit⟩⟩
      ⟨0, 0, 0, 0, 0⟩).2.1.successful_downloads = 0 + 1 :=
  have h := C9_embed_failure_isolated "flac" true
    ⟨some (some Unit.unit), true, none, some "u", 200, [8192, 100], true,
      ⟨Except.error Unit.unit, Except.error Unit.unit, Except.error Unit.unit,
        Except.error Unit.unit⟩⟩
    ⟨0, 0, 0, 0, 0⟩ rfl rfl "u" rfl rfl
  ⟨h.1, h.2.2.1⟩

/-- Reading digit characters left to right stays below the corresponding
power of ten (generalized over the accumulator). -/
theorem foldl_digits_lt (l : List Char) :
    ∀ acc : Nat, (∀ c ∈ l, c.isDigit = true) →
      l.foldl (fun a c => a * 10 + (c.toNat - 48)) acc < (acc + 1) * 10 ^ l.length := by
  induction l with
  | nil => intro acc _; simp
  | cons c t ih =>
    intro acc h
    have hc := h c (List.mem_cons_self c t)
    have hd : c.toNat - 48 ≤ 9 := by
      simp [Char.isDigit] at hc
      have h2 : c.toNat ≤ 57 := hc.2
      omega
    have ht := ih (acc * 10 + (c.toNat - 48)) (fun b hb => h b (List.mem_cons_of_mem c hb))
    have hle : acc * 10 + (c.toNat - 48) + 1 ≤ (acc + 1) * 10 := by omega
    have hmul := Nat.mul_le_mul_right (10 ^ t.length) hle
    have heq : (acc + 1) * 10 ^ (t.length + 1) = (acc + 1) * 10 * 10 ^ t.length := by ring
    simp only [List.foldl_cons, List.length_cons]
    rw [heq]
    exact Nat.lt_of_lt_of_le ht hmul

/-- The date key never exceeds the unknown-date sentinel: a parsed date
uses at most 8 digits, so it is below 100000000. -/
theorem release_date_int_le (dv : Option String) : release_date_int dv ≤ 99999999 := by
  cases dv with
  | none => simp [release_date_int]
  | some ds =>
    simp only [release_date_int]
    by_cases h : ((ds.toList.filter Char.isDigit).take 8) = []
    · rw [if_pos h]
    · rw [if_neg h]
      have hdig : ∀ c ∈ (ds.toList.filter Char.isDigit).take 8, c.isDigit = true := by
        intro c hc
        exact List.of_mem_filter ((List.take_sublist _ _).subset hc)
      have hlen : ((ds.toList.filter Char.isDigit).take 8).length ≤ 8 := by
        simp [List.length_take]
      have hlt := foldl_digits_lt _ 0 hdig
      have hpow : (10 : Nat) ^ ((ds.toList.filter Char.isDigit).take 8).length ≤ 10 ^ 8 :=
        Nat.pow_le_pow_right (by norm_num) hlen
      have hnum : (10 : Nat) ^ 8 = 100000000 := by norm_num
      unfold digitsToNat
      omega

/-- Insertion adds the new element and keeps the rest. -/
theorem mem_insertByDateDesc (x b : Nat × ReleaseData) :
    ∀ l, b ∈ insertByDateDesc x l → b = x ∨ b ∈ l := by
  intro l
  induction l with
  | nil =>
    intro h
    simp [insertByDateDesc] at h
    exact Or.inl h
  | cons y ys ih =>
    intro h
    unfold insertByDateDesc at h
    by_cases hc : release_date_int y.2.date ≤ release_date_int x.2.date
    · rw [if_pos hc] at h
      rcases List.mem_cons.mp h with h1 | h2
      · exact Or.inl h1
      · exact Or.inr h2
    · rw [if_neg hc] at h
      rcases List.mem_cons.mp h with h1 | h2
      · exact Or.inr (List.mem_cons.mpr (Or.inl h1))
      · rcases ih h2 with h3 | h4
        · exact Or.inl h3
        · exact Or.inr (List.mem_cons.mpr (Or.inr h4))

/-- Insertion preserves descending order of date keys. -/
theorem pairwise_insertByDateDesc (x : Nat × ReleaseData) :
    ∀ l : List (Nat × ReleaseData),
      l.Pairwise (fun a b => release_date_int b.2.date ≤ release_date_int a.2.date) →
      (insertByDateDesc x l).Pairwise
        (fun a b => release_date_int b.2.date ≤ release_date_int a.2.date) := by
  intro l
  induction l with
  | nil => intro _; simp [insertByDateDesc]
  | cons y ys ih =>
    intro h
    rw [List.pairwise_cons] at h
    obtain ⟨hy, hys⟩ := h
    unfold insertByDateDesc
    by_cases hc : release_date_int y.2.date ≤ release_date_int x.2.date
    · rw [if_pos hc, List.pairwise_cons]
      constructor
      · intro b hb
        rcases List.mem_cons.mp hb with rfl | hb2
        · exact hc
        · exact le_trans (hy b hb2) hc
      · exact List.pairwise_cons.mpr ⟨hy, hys⟩
    · rw [if_neg hc, List.pairwise_cons]
      constructor
      · intro b hb
        rcases mem_insertByDateDesc x b ys hb with rfl | hb2
        · exact Nat.le_of_lt (Nat.lt_of_not_le hc)
        · exact hy b hb2
      · exact ih hys

/-- The stable sort by date key yields a descending key sequence. -/
theorem pairwise_sortByDateDesc (l : List (Nat × ReleaseData)) :
    (sortByDateDesc l).Pairwise
      (fun a b => release_date_int b.2.date ≤ release_date_int a.2.date) := by
  induction l with
  | nil => simp [sortByDateDesc]
  | cons x xs ih =>
    simp only [sortByDateDesc]
    exact pairwise_insertByDateDesc x _ ih

/-- Counterexample to claim C5 as stated: with one release of unknown
date and one dated 20200101, the sorted candidate list places the
unknown-date release FIRST, not last — the sentinel 99999999 is the
maximal key and the sort is descending. -/
theorem C5_counterexample :
    artistCandidates false 10
        [(1, ⟨some "New", none, "album", [10]⟩),
         (2, ⟨some "Old", some "20200101", "album", [11]⟩)]
      = [(1, ⟨some "New", none, "album", [10]⟩),
         (2, ⟨some "Old", some "20200101", "album", [11]⟩)] ∧
    (⟨some "New", none, "album", [10]⟩ : ReleaseData).date = none ∧
    release_date_int none = 99999999 ∧
    release_date_int (some "20200101") = 20200101 := by
  refine ⟨by decide, rfl, rfl, by decide⟩

/-- Claim C5 (amended): the artist flow sorts the filtered candidates by
the release-date key in DESCENDING order — releases with an unknown
(absent or unparsable) date receive the maximal sentinel key 99999999 and
are therefore ordered FIRST, not last — and the sorted list is truncated
to the requested maximum count. -/
theorem C5_artist_sort_amended (skipSingles : Bool) (limit : Nat)
    (rels : List (Nat × ReleaseData)) :
    artistCandidates skipSingles limit rels
      = (sortByDateDesc (albumsToDownload skipSingles rels)).take limit ∧
    (artistCandidates skipSingles limit rels).length ≤ limit ∧
    (artistCandidates skipSingles limit rels).Pairwise
      (fun a b => release_date_int b.2.date ≤ release_date_int a.2.date) ∧
    ∀ a ∈ artistCandidates skipSingles limit rels, a.2.date = none →
      ∀ b ∈ artistCandidates skipSingles limit rels,
        release_date_int b.2.date ≤ release_date_int a.2.date := by
  refine ⟨rfl, ?_, ?_, ?_⟩
  · simp [artistCandidates]
  · exact (pairwise_sortByDateDesc _).sublist (List.take_sublist _ _)
  · intro a _ hdate b _
    rw [hdate]
    simpa [release_date_int] using release_date_int_le b.2.date

/-- Witness for the amended C5: in the counterexample list the known-date
release's key is bounded by the unknown-date release's key. -/
theorem C5_witness :
    release_date_int
        ((2, (⟨some "Old", some "20200101", "album", [11]⟩ : ReleaseData)).2.date)
      ≤ release_date_int
        ((1, (⟨some "New", none, "album", [10]⟩ : ReleaseData)).2.date) :=
  (C5_artist_sort_amended false 10
      [(1, ⟨some "New", none, "album", [10]⟩),
       (2, ⟨some "Old", some "20200101", "album", [11]⟩)]).2.2.2
    (1, ⟨some "New", none, "album", [10]⟩) (by decide) rfl
    (2, ⟨some "Old", some "20200101", "album", [11]⟩) (by decide)

/-- Joining after appending a final part appends it behind a separator. -/
theorem joinBySpace_concat (x : String) :
    ∀ ps : List String, ps ≠ [] →
      joinBySpace (ps ++ [x]) = joinBySpace ps ++ " " ++ x := by
  intro ps
  induction ps with
  | nil => intro h; exact absurd rfl h
  | cons a rest ih =>
    intro _
    cases rest with
    | nil => rfl
    | cons b t =>
      show joinBySpace (a :: (b :: (t ++ [x]))) = joinBySpace (a :: b :: t) ++ " " ++ x
      rw [show joinBySpace (a :: (b :: (t ++ [x])))
          = a ++ " " ++ joinBySpace (b :: (t ++ [x])) from rfl]
      rw [show joinBySpace (a :: b :: t) = a ++ " " ++ joinBySpace (b :: t) from rfl]
      have hbt : joinBySpace ((b :: t) ++ [x]) = joinBySpace (b :: t) ++ " " ++ x :=
        ih (by simp)
      simp only [List.cons_append] at hbt
      rw [hbt]
      simp [String.append_assoc]

/-- `rstrip` does nothing when the list ends in a non-whitespace character. -/
theorem rstripList_concat (x : List Char) (c : Char) (h : pyIsSpaceChar c = false) :
    rstripList (x ++ [c]) = x ++ [c] := by
  unfold rstripList
  rw [List.reverse_append]
  simp [List.dropWhile_cons, h]

/-- A final part whose characters all survive the folder filter and which
ends in a closing bracket stays a suffix of the sanitized joined name. -/
theorem folder_label_suffix (ps : List String) (x : String) (hps : ps ≠ [])
    (hfilter : x.toList.filter folderAllowed = x.toList)
    (init : List Char) (hinit : x.toList = init ++ [']']) :
    x.toList <:+ (sanitizeFolderName (joinBySpace (ps ++ [x]))).toList := by
  rw [joinBySpace_concat x ps hps]
  show x.toList <:+ rstripList (((joinBySpace ps ++ " " ++ x).toList).filter folderAllowed)
  have htl : (joinBySpace ps ++ " " ++ x).toList
      = (joinBySpace ps ++ " ").toList ++ x.toList := String.data_append _ _
  rw [htl, List.filter_append, hfilter, hinit, ← List.append_assoc]
  rw [rstripList_concat _ ']' (by decide)]
  exact ⟨((joinBySpace ps ++ " ").toList).filter folderAllowed, by rw [← List.append_assoc]⟩

/-- Claim C7: the release directory name is the sanitized (alphanumerics
plus space, hyphen, underscore, dot, and brackets) space-join of the
optional two-digit prefix, the bracketed 4-digit year when the date's
first four characters are digits, the title, and the type label; the name
ends with the bracketed label `[LP]` when the service types the release
as album, otherwise `[SINGLE]` for exactly one track id, otherwise `[EP]`
for 2 to 6 track ids, and carries no label otherwise. -/
theorem C7_folder_name (releaseId : Nat) (albumIndex : Option Nat) (rel : ReleaseData) :
    buildFolderName releaseId albumIndex rel
      = sanitizeFolderName (joinBySpace (folderParts releaseId albumIndex rel)) ∧
    (rel.rtype = "album" →
      "[LP]".toList <:+ (buildFolderName releaseId albumIndex rel).toList) ∧
    (rel.rtype ≠ "album" → rel.track_ids.length = 1 →
      "[SINGLE]".toList <:+ (buildFolderName releaseId albumIndex rel).toList) ∧
    (rel.rtype ≠ "album" → 2 ≤ rel.track_ids.length → rel.track_ids.length ≤ 6 →
      "[EP]".toList <:+ (buildFolderName releaseId albumIndex rel).toList) ∧
    (rel.rtype ≠ "album" → rel.track_ids.length ≠ 1 →
      ¬(2 ≤ rel.track_ids.length ∧ rel.track_ids.length ≤ 6) →
      releaseLabel rel.rtype rel.track_ids = none) := by
  have hsuffix : ∀ lab : String,
      releaseLabel rel.rtype rel.track_ids = some lab →
      ("[" ++ lab ++ "]").toList.filter folderAllowed = ("[" ++ lab ++ "]").toList →
      ∀ init : List Char, ("[" ++ lab ++ "]").toList = init ++ [']'] →
      ("[" ++ lab ++ "]").toList <:+ (buildFolderName releaseId albumIndex rel).toList := by
    intro lab hlab hfilter init hinit
    unfold buildFolderName
    have hparts : folderParts releaseId albumIndex rel
        = ((match albumIndex with
            | some i => if 0 < i then [twoDigit i ++ "."] else []
            | none => []) ++
           (match yearStr rel.date with
            | some y => ["[" ++ y ++ "]"]
            | none => []) ++
           [rel.title.getD ("Release_" ++ toString releaseId)]) ++ ["[" ++ lab ++ "]"] := by
      simp [folderParts, hlab, List.append_assoc]
    rw [hparts]
    apply folder_label_suffix _ _ ?_ hfilter init hinit
    simp
  refine ⟨rfl, ?_, ?_, ?_, ?_⟩
  · intro h
    have hlab : releaseLabel rel.rtype rel.track_ids = some "LP" := by
      simp [releaseLabel, h]
    exact hsuffix "LP" hlab (by decide) ['[', 'L', 'P'] (by decide)
  · intro h1 h2
    have hlab : releaseLabel rel.rtype rel.track_ids = some "SINGLE" := by
      simp [releaseLabel, h1, h2]
    exact hsuffix "SINGLE" hlab (by decide) ['[', 'S', 'I', 'N', 'G', 'L', 'E'] (by decide)
  · intro h1 h2 h3
    have hne1 : rel.track_ids.length ≠ 1 := by omega
    have hlab : releaseLabel rel.rtype rel.track_ids = some "EP" := by
      simp [releaseLabel, h1, hne1, h2, h3]
    exact hsuffix "EP" hlab (by decide) ['[', 'E', 'P'] (by decide)
  · intro h1 h2 h3
    simp [releaseLabel, h1, h2, h3]

/-- Witness for C7: an album release gets a name ending in the LP label. -/
theorem C7_witness :
    "[LP]".toList <:+ (buildFolderName 7 (some 1)
      ⟨some "Title", some "20200101", "album", [1, 2]⟩).toList :=
  (C7_folder_name 7 (some 1) ⟨some "Title", some "20200101", "album", [1, 2]⟩).2.1 rfl

/-- Witness for C3: with fallback disabled the skipped track's id lands in
the failure list. -/
theorem C3_witness :
    116136641 ∈ (zd_download_track ⟨"1", false⟩ (some ⟨116136641, "X", false⟩) []).2 :=
  (C3_flac_fallback [] "X").2.2

/-- Witness for C8: with the option disabled a single-track release is
kept. -/
theorem C8_witness :
    albumsToDownload false [(3, (⟨some "A", none, "single", [1]⟩ : ReleaseData))]
      = [(3, (⟨some "A", none, "single", [1]⟩ : ReleaseData))] :=
  (C8_skip_singles false [(3, ⟨some "A", none, "single", [1]⟩)]
    (3, ⟨some "A", none, "single", [1]⟩)).2
